import Mathlib

/-!
Verification development for the quality-gated generation pipeline of the
qnc-curriculum-studio backend: a shallow embedding of the rubric evaluators
(`app/quality/*.py`), the orchestrator decision functions
(`app/graph/research_graph.py`), the tiered web-search coordinator
(`app/graph/tavily_research.py`) and the citation-fidelity repair subsystem
(`app/graph/technical_compiler.py`), together with theorems about their
specified properties.

Text is modelled as `List Char` (ASCII content); Python `float` scores, which
are integer-valued in every evaluator, are modelled as `Int` with exact
rational threshold comparisons rendered as cross-multiplied integer
comparisons; monetary-free external calls (LLM, web client) are parameters.
-/

set_option maxRecDepth 100000

namespace QncStudio

/-- Shorthand: the character list of a string literal. -/
def tl (s : String) : List Char := s.toList

/-- Python whitespace (`\s` over ASCII): space, tab, newline, CR, VT, FF. -/
def isPySpace (c : Char) : Bool :=
  c = ' ' || c = '\t' || c = '\n' || c = '\r' || c = '\x0b' || c = '\x0c'

/-- ASCII lower-casing of one character (Python `str.lower` on ASCII input). -/
def lowerChar (c : Char) : Char :=
  if 'A' ≤ c ∧ c ≤ 'Z' then Char.ofNat (c.toNat + 32) else c

/-- ASCII lower-casing of a text (Python `str.lower`). -/
def lowerStr (s : List Char) : List Char := s.map lowerChar

/-- Python `needle in hay` for strings: contiguous-substring test. -/
def containsSub : List Char → List Char → Bool
  | hay, needle =>
    needle.isPrefixOf hay ||
      match hay with
      | [] => false
      | _ :: t => containsSub t needle

/-- Worker for `splitOnSub`: scan `hay`, splitting at each leftmost,
non-overlapping occurrence of the separator `s :: ss`.  The recursion is
structural on a fuel argument initialised to the length of the text; every
step consumes at least one character, so the fuel-exhausted base case (which
returns the same value as the empty-text case) is reached only with an empty
remainder. -/
def splitOnSubGo (s : Char) (ss : List Char) : Nat → List Char → List Char → List (List Char)
  | 0, acc, rest => [acc.reverse ++ rest]
  | fuel + 1, acc, rest =>
    match rest with
    | [] => [acc.reverse]
    | c :: t =>
      if (s :: ss).isPrefixOf (c :: t) then
        acc.reverse :: splitOnSubGo s ss fuel [] (t.drop ss.length)
      else
        splitOnSubGo s ss fuel (c :: acc) t

/-- Python `hay.split(sep)` for a non-empty separator (keeps empty pieces). -/
def splitOnSub (hay sep : List Char) : List (List Char) :=
  match sep with
  | [] => [hay]
  | s :: ss => splitOnSubGo s ss hay.length [] hay

/-- Python `hay.count(sep)` for a non-empty separator: number of
non-overlapping occurrences, scanning left to right. -/
def countSub (hay sep : List Char) : Nat := (splitOnSub hay sep).length - 1

/-- Python `s.replace(old, new)`: replace every non-overlapping occurrence. -/
def replaceAll (s old new : List Char) : List Char :=
  List.intercalate new (splitOnSub s old)

/-- Python `s.strip()` on ASCII input. -/
def stripWs (s : List Char) : List Char :=
  ((s.dropWhile isPySpace).reverse.dropWhile isPySpace).reverse

/-- Worker for `pyWords`, structural on fuel. -/
def pyWordsGo : Nat → List Char → List (List Char)
  | 0, _ => []
  | _ + 1, [] => []
  | fuel + 1, c :: t =>
    if isPySpace c then pyWordsGo fuel t
    else (c :: t.takeWhile (fun x => ¬ isPySpace x)) ::
      pyWordsGo fuel (t.dropWhile (fun x => ¬ isPySpace x))

/-- Python `s.split()` (no separator): maximal runs of non-whitespace. -/
def pyWords (s : List Char) : List (List Char) := pyWordsGo s.length s

/-- Python `s[-n:]` (for `n > 0`): the last `n` characters, or all of `s`. -/
def takeLast (n : Nat) (s : List Char) : List Char := s.drop (s.length - n)

/-- `re.split(r'(?<=[.!?])\s+', text)` worker: a maximal whitespace run
immediately preceded by `.`, `!` or `?` is a sentence delimiter.  `acc` holds
the current sentence reversed, so its head is the look-behind character. -/
def splitSentencesGo : Nat → List Char → List Char → List (List Char)
  | 0, acc, rest => [acc.reverse ++ rest]
  | _ + 1, acc, [] => [acc.reverse]
  | fuel + 1, acc, c :: t =>
    if isPySpace c && (match acc with
        | p :: _ => p = '.' || p = '!' || p = '?'
        | [] => false) then
      acc.reverse :: splitSentencesGo fuel [] (t.dropWhile isPySpace)
    else
      splitSentencesGo fuel (c :: acc) t

/-- `re.split(r'(?<=[.!?])\s+', text)`: split a text into sentences. -/
def splitSentences (s : List Char) : List (List Char) := splitSentencesGo s.length [] s

/-- A regex `\w` character: ASCII letter, digit or underscore. -/
def isWordChar (c : Char) : Bool := c.isAlpha || c.isDigit || c = '_'

/-- The maximal `\w`-runs of a text, in order (`re.findall(r'\b\w+\b', s)`
keeps each maximal run whole; length filtering happens at the call site). -/
def wordRunsGo : Nat → List Char → List (List Char)
  | 0, _ => []
  | _ + 1, [] => []
  | fuel + 1, c :: t =>
    if isWordChar c then
      (c :: t.takeWhile isWordChar) :: wordRunsGo fuel (t.dropWhile isWordChar)
    else wordRunsGo fuel t

/-- The maximal word-character runs of a text. -/
def wordRuns (s : List Char) : List (List Char) := wordRunsGo s.length s

/-- `re.findall(r'`([^`]+)`', s)`: the non-empty contents of successive
backtick pairs, scanning left to right. -/
def backtickTermsGo : Nat → List Char → List (List Char)
  | 0, _ => []
  | _ + 1, [] => []
  | fuel + 1, c :: t =>
    if c = '`' then
      let content := t.takeWhile (fun x => x ≠ '`')
      match t.dropWhile (fun x => x ≠ '`') with
      | [] => []
      | _ :: rest =>
        if content = [] then backtickTermsGo fuel t
        else content :: backtickTermsGo fuel rest
    else backtickTermsGo fuel t

/-- The backtick-delimited terms of a text. -/
def backtickTerms (s : List Char) : List (List Char) := backtickTermsGo s.length s

/-- Does `s` begin with a citation marker `[kind-N]` (`N` one or more digits),
as matched by the regex `\[(doc|web)-\d+\]`? -/
def citationKindAt (kind : List Char) (s : List Char) : Bool :=
  if ('[' :: (kind ++ ['-'])).isPrefixOf s then
    let rest := s.drop (kind.length + 2)
    rest.takeWhile Char.isDigit ≠ [] ∧ (rest.dropWhile Char.isDigit).head? = some ']'
  else false

/-- Does `s` contain a citation marker of the given kind anywhere
(the set-of-groups result of `re.findall(r'\[(doc|web)-\d+\]', s)`)? -/
def hasCitationKind (kind : List Char) : List Char → Bool
  | [] => false
  | c :: t => citationKindAt kind (c :: t) || hasCitationKind kind t

/-- `any(phrase in hay for phrase in needles)`. -/
def containsAny (hay : List Char) (needles : List (List Char)) : Bool :=
  needles.any (fun n => containsSub hay n)

/-- `sum(1 for needle in needles if needle in hay)`. -/
def countPresent (hay : List Char) (needles : List (List Char)) : Nat :=
  (needles.filter (fun n => containsSub hay n)).length

/-! ## Data model: citations and evaluation reports -/

/-- A citation record as built by `_format_documents` / `_format_web_results`:
the fields the evaluators and the compiler read (`id`, `source`). -/
structure Citation where
  id : List Char
  source : List Char
deriving DecidableEq, Repr

/-- `NarrativeEvaluation` (`app/quality/narrative_evaluator.py`). -/
structure NarrativeEvaluation where
  technical_preservation : Int
  complexity_alignment : Int
  scenario_quality : Int
  aha_moment : Int
  narrative_flow : Int
  total_score : Int
  passed : Bool
  feedback : List (List Char)
deriving DecidableEq, Repr

/-- `CompilerEvaluation` (`app/quality/compiler_evaluator.py`). -/
structure CompilerEvaluation where
  technical_preservation : Int
  psw_structure : Int
  micro_fix_clarity : Int
  real_world_integration : Int
  reflective_depth : Int
  total_score : Int
  passed : Bool
  feedback : List (List Char)
deriving DecidableEq, Repr

/-- `AethelgardEvaluation` (`app/quality/aethelgard_evaluator.py`). -/
structure AethelgardEvaluation where
  brand_voice : Int
  keyword_integration : Int
  rag_structure : Int
  final_quality : Int
  uniqueness : Int
  total_score : Int
  passed : Bool
  feedback : List (List Char)
deriving DecidableEq, Repr

/-! ## Narrative quality evaluator (`NarrativeQualityEvaluator`) -/

/-- `NarrativeQualityEvaluator._evaluate_technical_preservation`:
citation presence, code-block count and backtick-term preservation.
The exact float comparison `preserved/len < 0.7` is the integer comparison
`preserved * 10 < len * 7`. -/
def narrativeTechPreservation (narrative technical : List Char)
    (citations : List Citation) : Int :=
  let citationIds := citations.map (·.id)
  let missing := citationIds.filter
    (fun cid => cid ≠ [] ∧ ¬ containsSub narrative ('[' :: (cid ++ [']'])))
  let dCitations : Int := if missing ≠ [] then min 10 (2 * (missing.length : Int)) else 0
  let dCode : Int := if countSub narrative (tl "```") < countSub technical (tl "```") then 5 else 0
  let techTerms := (backtickTerms technical).eraseDups
  let preserved := (techTerms.filter (fun term =>
    containsSub narrative ('`' :: (term ++ ['`'])) || containsSub narrative term)).length
  let dTerms : Int := if techTerms ≠ [] ∧ preserved * 10 < techTerms.length * 7 then 5 else 0
  max 0 (30 - dCitations - dCode - dTerms)

/-- `NarrativeQualityEvaluator._evaluate_complexity_alignment`: word-count
range per complexity level, plus chain-of-thought indicators for critical
topics. -/
def narrativeComplexityAlignment (narrative complexity : List Char) : Int :=
  let ranges : Nat × Nat :=
    if complexity = tl "simple" then (200, 500)
    else if complexity = tl "standard" then (400, 800)
    else if complexity = tl "critical" then (600, 1200)
    else (400, 800)
  let wordCount := (pyWords narrative).length
  let dLen : Int :=
    if wordCount < ranges.1 then 10
    else if wordCount > ranges.2 then 5
    else 0
  let cotIndicators := [tl "first", tl "then", tl "next", tl "finally",
    tl "step", tl "realize", tl "understand", tl "discover",
    tl "why", tl "because", tl "therefore"]
  let dCot : Int :=
    if complexity = tl "critical" ∧ countPresent (lowerStr narrative) cotIndicators < 5
    then 5 else 0
  max 0 (20 - dLen - dCot)

/-- `NarrativeQualityEvaluator._evaluate_scenario_quality`: one character,
one problem, one solution. -/
def narrativeScenarioQuality (narrative : List Char) : Int :=
  let lower := lowerStr narrative
  let dCharacter : Int :=
    if ¬ containsAny lower [tl "she ", tl "he ", tl "they ", tl "priya",
      tl "maya", tl "alex", tl "sam"] then 7 else 0
  let dProblem : Int :=
    if ¬ containsAny lower [tl "problem", tl "issue", tl "error", tl "broke",
      tl "failed", tl "stuck", tl "confused", tl "wondering", tl "struggled",
      tl "hit", tl "faced"] then 7 else 0
  let dSolution : Int :=
    if ¬ containsAny lower [tl "solution", tl "fix", tl "solved", tl "realized",
      tl "discovered", tl "learned", tl "understood", tl "aha", tl "moment",
      tl "clicked"] then 6 else 0
  max 0 (20 - dCharacter - dProblem - dSolution)

/-- `NarrativeQualityEvaluator._evaluate_aha_moment`: indicator presence
count; no indicator costs 15 points, a single one costs 8. -/
def narrativeAhaMoment (narrative : List Char) : Int :=
  let lower := lowerStr narrative
  let ahaCount := countPresent lower [tl "aha", tl "moment", tl "realized",
    tl "clicked", tl "suddenly", tl "micro fix", tl "macro", tl "small",
    tl "big", tl "clarity", tl "unlock", tl "insight", tl "revelation",
    tl "discovered"]
  let d : Int := if ahaCount = 0 then 15 else if ahaCount < 2 then 8 else 0
  max 0 (20 - d)

/-- `NarrativeQualityEvaluator._evaluate_narrative_flow`: paragraph count and
transition-word density (`transition_count < len(sentences) * 0.1` is the
integer comparison `tCount * 10 < sentences`). -/
def narrativeFlowScore (narrative : List Char) : Int :=
  let paragraphs := ((splitOnSub narrative (tl "\n\n")).map stripWs).filter (· ≠ [])
  let dPara : Int := if paragraphs.length < 3 then 3 else 0
  let sentences := (splitOnSub narrative (tl ". ")).length
  let tCount := countPresent (lowerStr narrative) [tl "however", tl "but",
    tl "then", tl "next", tl "first", tl "second", tl "finally",
    tl "meanwhile", tl "therefore", tl "because"]
  let dTrans : Int := if sentences > 5 ∧ tCount * 10 < sentences then 2 else 0
  max 0 (10 - dPara - dTrans)

/-- `NarrativeQualityEvaluator.evaluate`: scores the five criteria, collects
feedback at the source's thresholds, and passes iff the total reaches 80 and
technical preservation stays at or above its hard floor of 25. -/
def narrativeEvaluate (narrative technical : List Char)
    (citations : List Citation) (complexity : List Char) : NarrativeEvaluation :=
  let techScore := narrativeTechPreservation narrative technical citations
  let complexityScore := narrativeComplexityAlignment narrative complexity
  let scenarioScore := narrativeScenarioQuality narrative
  let ahaScore := narrativeAhaMoment narrative
  let flowScore := narrativeFlowScore narrative
  let feedback :=
    (if techScore < 25 then [tl "CRITICAL: Technical facts or citations were altered or removed"]
     else if techScore < 28 then [tl "Some citations missing or technical details diluted"]
     else []) ++
    (if complexityScore < 15 then
      [tl "Content complexity doesn't match '" ++ complexity ++ tl "' level"] else []) ++
    (if scenarioScore < 15 then
      [tl "Scenario needs improvement: ensure one character, one problem, one solution"] else []) ++
    (if ahaScore < 15 then
      [tl "CRITICAL: 'Micro fix, macro impact' moment is unclear or missing"] else []) ++
    (if flowScore < 7 then [tl "Narrative flow is choppy or disjointed"] else [])
  let totalScore := techScore + complexityScore + scenarioScore + ahaScore + flowScore
  { technical_preservation := techScore
    complexity_alignment := complexityScore
    scenario_quality := scenarioScore
    aha_moment := ahaScore
    narrative_flow := flowScore
    total_score := totalScore
    passed := decide (totalScore ≥ 80 ∧ techScore ≥ 25)
    feedback := feedback }

/-! ## Compiler quality evaluator (`CompilerQualityEvaluator`) -/

/-- `CompilerQualityEvaluator._evaluate_technical_preservation`.  The citation
check compares the result of `re.findall(r'\[(doc|web)-\d+\]', ...)`, which
yields the capture groups, i.e. at most the two kind strings `doc` and `web`.
The float comparisons `compiled < tech * 0.5` and `rate < 0.6` are the exact
integer comparisons `2 * compiled < tech` and `preserved * 5 < len * 3`. -/
def compilerTechPreservation (compiled technical : List Char) : Int :=
  let missingKinds : Nat :=
    (if hasCitationKind (tl "doc") technical ∧ ¬ hasCitationKind (tl "doc") compiled
     then 1 else 0) +
    (if hasCitationKind (tl "web") technical ∧ ¬ hasCitationKind (tl "web") compiled
     then 1 else 0)
  let dCitations : Int := if missingKinds ≠ 0 then min 10 (2 * (missingKinds : Int)) else 0
  let techBlocks := countSub technical (tl "```")
  let compiledBlocks := countSub compiled (tl "```")
  let dCode : Int :=
    if techBlocks > 0 ∧ compiledBlocks = 0 then 10
    else if techBlocks > 0 ∧ 2 * compiledBlocks < techBlocks then 3
    else 0
  let techTerms := (backtickTerms technical).eraseDups
  let preserved := (techTerms.filter
    (fun term => containsSub (lowerStr compiled) (lowerStr term))).length
  let dTerms : Int := if techTerms ≠ [] ∧ preserved * 5 < techTerms.length * 3 then 5 else 0
  max 0 (30 - dCitations - dCode - dTerms)

/-- `CompilerQualityEvaluator._evaluate_psw_structure`: no explicit labels,
problem framing in the first 500 characters, system language anywhere, and
win language in the last 500 characters. -/
def compilerPswStructure (compiled : List Char) : Int :=
  let lower := lowerStr compiled
  let dLabels : Int :=
    if containsSub lower (tl "problem:") || containsSub lower (tl "system:")
        || containsSub lower (tl "win:") then 10 else 0
  let dProblem : Int :=
    if ¬ containsAny (lower.take 500) [tl "challenge", tl "question", tl "issue",
      tl "problem", tl "why", tl "when", tl "matter", tl "important",
      tl "pain point", tl "difficulty"] then 5 else 0
  let dSystem : Int :=
    if ¬ containsAny lower [tl "how", tl "works", tl "components",
      tl "technically", tl "mechanism", tl "process", tl "steps",
      tl "architecture"] then 5 else 0
  let dWin : Int :=
    if ¬ containsAny (takeLast 500 lower) [tl "enables", tl "improves",
      tl "benefit", tl "impact", tl "advantage", tl "workflow",
      tl "productivity", tl "efficiency"] then 5 else 0
  max 0 (20 - dLabels - dProblem - dSystem - dWin)

/-- `CompilerQualityEvaluator._evaluate_micro_fix_clarity`. -/
def compilerMicroFixClarity (compiled : List Char) : Int :=
  let lower := lowerStr compiled
  let microFixCount := countPresent lower [tl "small fix", tl "micro fix",
    tl "small change", tl "simple change", tl "one change", tl "key insight",
    tl "crucial detail", tl "critical point", tl "big clarity",
    tl "macro impact", tl "big impact", tl "unlocks"]
  let d : Int := if microFixCount = 0 then 15 else if microFixCount < 2 then 8 else 0
  max 0 (20 - d)

/-- `CompilerQualityEvaluator._evaluate_real_world_integration`. -/
def compilerRealWorldIntegration (compiled : List Char) : Int :=
  let lower := lowerStr compiled
  let dSection : Int :=
    if ¬ (containsSub lower (tl "real-world example") ||
          containsSub lower (tl "real world example")) then 7 else 0
  let exampleCount := countPresent lower [tl "for example", tl "for instance",
    tl "consider", tl "imagine", tl "in practice", tl "production",
    tl "real-world", tl "industry"]
  let dEmbedded : Int := if exampleCount < 3 then 5 else 0
  max 0 (15 - dSection - dEmbedded)

/-- `CompilerQualityEvaluator._evaluate_reflective_depth`. -/
def compilerReflectiveDepth (compiled : List Char) : Int :=
  let lower := lowerStr compiled
  let considerCount := countSub lower (tl "consider")
  let dConsider : Int := if considerCount < 3 then 7 else 0
  let hasReflection :=
    containsSub lower (tl "reflection") || containsSub lower (tl "think about")
  let dReflection : Int := if ¬ hasReflection then 5 else 0
  let dQuestion : Int :=
    if hasReflection ∧ ¬ containsSub (takeLast 300 compiled) (tl "?") then 3 else 0
  max 0 (15 - dConsider - dReflection - dQuestion)

/-- `CompilerQualityEvaluator.evaluate`: five criteria, feedback at the
source's thresholds, pass iff the total reaches 95 and technical preservation
stays at or above its hard floor of 28. -/
def compilerEvaluate (compiled technical : List Char) : CompilerEvaluation :=
  let techScore := compilerTechPreservation compiled technical
  let pswScore := compilerPswStructure compiled
  let microFixScore := compilerMicroFixClarity compiled
  let realWorldScore := compilerRealWorldIntegration compiled
  let reflectiveScore := compilerReflectiveDepth compiled
  let feedback :=
    (if techScore < 28 then [tl "CRITICAL: Technical facts or citations were altered or removed"]
     else if techScore < 30 then [tl "Some citations missing or technical details diluted"]
     else []) ++
    (if pswScore < 15 then [tl "PSW structure is too explicit or missing natural flow"] else []) ++
    (if microFixScore < 15 then
      [tl "CRITICAL: 'Small fixes, big clarity' moment is unclear or missing"] else []) ++
    (if realWorldScore < 12 then
      [tl "Need more embedded examples AND dedicated Real-World Examples section"] else []) ++
    (if reflectiveScore < 12 then
      [tl "Need more 'Consider...' prompts throughout AND final reflection question"] else [])
  let totalScore := techScore + pswScore + microFixScore + realWorldScore + reflectiveScore
  { technical_preservation := techScore
    psw_structure := pswScore
    micro_fix_clarity := microFixScore
    real_world_integration := realWorldScore
    reflective_depth := reflectiveScore
    total_score := totalScore
    passed := decide (totalScore ≥ 95 ∧ techScore ≥ 28)
    feedback := feedback }

/-! ## Aethelgard brand evaluator (`AethelgardQualityEvaluator`) -/

/-- `AethelgardQualityEvaluator._evaluate_brand_voice`: honest, reflective
and clear voice checks. -/
def aethelgardBrandVoice (content : List Char) : Int :=
  let lower := lowerStr content
  let honestyCount := countPresent lower [tl "complex", tl "confusing",
    tl "tricky", tl "subtle", tl "nuanced", tl "at first", tl "initially",
    tl "seems", tl "can be", tl "important to understand", tl "worth noting"]
  let dHonesty : Int := if honestyCount = 0 then 8 else if honestyCount < 2 then 4 else 0
  let hasReflectionQuestion :=
    containsSub content (tl "?") && containsAny lower [tl "think about",
      tl "consider", tl "reflect", tl "imagine", tl "what if", tl "how might",
      tl "when was", tl "have you"]
  let dReflective : Int := if ¬ hasReflectionQuestion then 8 else 0
  let clarityCount := countPresent lower [tl "micro", tl "small fix",
    tl "small change", tl "one command", tl "one line", tl "clarity",
    tl "clear", tl "simple", tl "straightforward", tl "aha", tl "moment",
    tl "clicked", tl "realized"]
  let dClarity : Int := if clarityCount = 0 then 9 else if clarityCount < 2 then 4 else 0
  max 0 (25 - dHonesty - dReflective - dClarity)

/-- `AethelgardQualityEvaluator._evaluate_keyword_integration`. -/
def aethelgardKeywordIntegration (content : List Char) : Int :=
  let dKeywords : Int :=
    if ¬ (containsSub content (tl "**Keywords:**") ||
          containsSub (lowerStr content) (tl "**keywords:**")) then 8 else 0
  let dQuickAnswer : Int :=
    if ¬ (containsSub content (tl "**Quick Answer") ||
          containsSub (lowerStr content) (tl "**quick answer")) then 7 else 0
  let dBackticks : Int := if (backtickTerms content).length < 5 then 5 else 0
  max 0 (20 - dKeywords - dQuickAnswer - dBackticks)

/-- `AethelgardQualityEvaluator._evaluate_rag_structure`. -/
def aethelgardRagStructure (content : List Char) : Int :=
  let dHeaders : Int := if countSub content (tl "**") < 4 then 7 else 0
  let dRelated : Int :=
    if ¬ (containsSub content (tl "**Related Concepts") ||
          containsSub (lowerStr content) (tl "**related concepts")) then 6 else 0
  let paragraphs := ((splitOnSub content (tl "\n\n")).map stripWs).filter (· ≠ [])
  let dParagraphs : Int := if paragraphs.length < 4 then 4 else 0
  let dCode : Int := if countSub content (tl "```") < 2 then 3 else 0
  max 0 (20 - dHeaders - dRelated - dParagraphs - dCode)

/-- `AethelgardQualityEvaluator._evaluate_quality_preservation` (the baseline
score parameter is read but unused by the scoring heuristics). -/
def aethelgardQualityPreservation (content : List Char) : Int :=
  let dLength : Int := if (pyWords content).length > 1500 then 5 else 0
  let citationCount := countSub content (tl "[doc-") + countSub content (tl "[web-")
  let dCitations : Int := if citationCount < 3 then 8 else 0
  let dCode : Int := if ¬ containsSub content (tl "```") then 7 else 0
  max 0 (20 - dLength - dCitations - dCode)

/-- `AethelgardQualityEvaluator._evaluate_uniqueness`. -/
def aethelgardUniqueness (content : List Char) : Int :=
  let lower := lowerStr content
  let dCharacter : Int :=
    if ¬ containsAny lower [tl "priya", tl "maya", tl "alex", tl "sam",
      tl "she ", tl "he ", tl "they "] then 5 else 0
  let storyCount := countPresent lower [tl "realized", tl "discovered",
    tl "moment", tl "clicked", tl "struggled", tl "wondered", tl "tried",
    tl "found"]
  let dStory : Int := if storyCount < 2 then 5 else 0
  let dMarkers : Int :=
    if ¬ containsAny lower [tl "micro fix", tl "macro", tl "small fix",
      tl "big clarity", tl "aha moment", tl "clicked", tl "unlocked"]
    then 5 else 0
  max 0 (15 - dCharacter - dStory - dMarkers)

/-- `AethelgardQualityEvaluator.evaluate`: five criteria, feedback at the
source's thresholds, pass iff the total reaches 85 and brand voice stays at
or above its hard floor of 20. -/
def aethelgardEvaluate (content : List Char) : AethelgardEvaluation :=
  let brandScore := aethelgardBrandVoice content
  let keywordScore := aethelgardKeywordIntegration content
  let ragScore := aethelgardRagStructure content
  let qualityScore := aethelgardQualityPreservation content
  let uniquenessScore := aethelgardUniqueness content
  let feedback :=
    (if brandScore < 20 then
      [tl "CRITICAL: Brand voice (honest, reflective, clear) is weak or missing"] else []) ++
    (if keywordScore < 15 then
      [tl "Keywords missing or poorly integrated for RAG retrieval"] else []) ++
    (if ragScore < 15 then
      [tl "Content structure not optimized for RAG/chatbot retrieval"] else []) ++
    (if qualityScore < 15 then [tl "Quality degraded from technical baseline"] else []) ++
    (if uniquenessScore < 10 then
      [tl "Content feels generic, lacks Aethelgard distinctiveness"] else [])
  let totalScore := brandScore + keywordScore + ragScore + qualityScore + uniquenessScore
  { brand_voice := brandScore
    keyword_integration := keywordScore
    rag_structure := ragScore
    final_quality := qualityScore
    uniqueness := uniquenessScore
    total_score := totalScore
    passed := decide (totalScore ≥ 85 ∧ brandScore ≥ 20)
    feedback := feedback }

/-! ## Orchestrator decision functions (`research_graph.py`)

The LangGraph conditional-edge callbacks are pure functions of the state
fields they read.  A missing or empty state entry (`state.get(...) or {}`)
is modelled as `Option.none`; the per-field dictionary defaults
(`.get("technical_preservation", 0)` etc.) are modelled with `getD`. -/

/-- The fields of the generation-quality report read by
`_evaluation_decision` (`evaluation["passed"]`, `evaluation["feedback"]`). -/
structure GenerationEvaluation where
  passed : Bool
  feedback : List (List Char)
deriving DecidableEq, Repr

/-- `ResearchGraph._evaluation_decision`: route after Quality Gate 1. -/
def evaluationDecision (evaluation : Option GenerationEvaluation)
    (retryCount : Nat) : String :=
  match evaluation with
  | none => "done"
  | some e =>
    if e.passed then "done"
    else if retryCount ≥ 5 then "done"
    else if e.feedback = [] then "done"
    else "rewrite"

/-- `_rewrite_answer` sets `retry_count = state.get("retry_count", 0) + 1`. -/
def rewriteRetryCount (retryCount : Nat) : Nat := retryCount + 1

/-- Number of generate-then-evaluate cycles of the Gate-1 loop, starting at
retry counter `r`, when attempt `k` (made with `retry_count = k`) is judged
by `outcome k`.  One cycle always happens; a `rewrite` decision re-enters
generation with the counter incremented by `_rewrite_answer`.  The recursion
is structural on a fuel argument; the retry-bound theorems below hold for
every fuel, so the bound comes from the decision logic, not from the fuel. -/
def generateEvaluateCycles (outcome : Nat → GenerationEvaluation) :
    Nat → Nat → Nat
  | 0, _ => 1
  | fuel + 1, r =>
    if evaluationDecision (some (outcome r)) r = "rewrite" then
      1 + generateEvaluateCycles outcome fuel (rewriteRetryCount r)
    else 1

/-- The retry counter at which the Gate-1 loop exits (same fuel discipline as
`generateEvaluateCycles`). -/
def finalRetryCount (outcome : Nat → GenerationEvaluation) : Nat → Nat → Nat
  | 0, r => r
  | fuel + 1, r =>
    if evaluationDecision (some (outcome r)) r = "rewrite" then
      finalRetryCount outcome fuel (rewriteRetryCount r)
    else r

/-- `ResearchGraph._narrative_decision`: route after Quality Gate 2
(abort on the technical-preservation hard floor, else continue/regenerate). -/
def narrativeDecision (narrativeEval : Option NarrativeEvaluation)
    (storyRetryCount : Nat) : String :=
  let techPreservation : Int := (narrativeEval.map (·.technical_preservation)).getD 0
  if techPreservation < 25 then "abort"
  else if (narrativeEval.map (·.passed)).getD false then "continue"
  else if storyRetryCount ≥ 1 then "continue"
  else if (narrativeEval.map (·.feedback)).getD [] ≠ [] then "regenerate"
  else "continue"

/-- `ResearchGraph._compiler_decision`: route after the compiler quality
gate; `threshold` is `settings.compiler_quality_threshold` (default 95). -/
def compilerDecision (compilerEval : Option CompilerEvaluation)
    (compilerRetryCount : Nat) (threshold : Int) : String :=
  let score : Int := (compilerEval.map (·.total_score)).getD 0
  if score ≥ threshold then "done"
  else if compilerRetryCount < 2 then "recompile"
  else "done"

/-- `ResearchGraph._aethelgard_decision`: route after Quality Gate 3.
`finalQuality` is the total score the decision recomputes by re-running the
technical `QualityEvaluator` on the enriched answer; `baseline` is
`technical_baseline_score` and `tolerance` is
`settings.quality_degradation_tolerance`. -/
def aethelgardDecision (aethelgardEval : Option AethelgardEvaluation)
    (baseline tolerance finalQuality : ℚ) (polishRetryCount : Nat) : String :=
  if finalQuality < baseline - tolerance then "abort"
  else if (aethelgardEval.map (·.passed)).getD false then "done"
  else if polishRetryCount ≥ 1 then "done"
  else if (aethelgardEval.map (·.feedback)).getD [] ≠ [] then "repolish"
  else "done"

/-- The compiler gate segment of the graph (`compile_technical` /
`evaluate_compiler` / `recompile` with the `_compiler_decision` edges):
attempt `k` produces `compileOut k` (`_compile_technical` sets
`compiler_retry_count = 0`, `_recompile` increments it), and a `done`
decision routes to the terminal node with the current compiled answer and no
abort marker. -/
structure CompilerGateResult where
  finalAnswer : List Char
  retries : Nat
  aborted : Bool
deriving DecidableEq, Repr

/-- Run the compiler gate loop from retry counter `r`.  The recursion is
structural on a fuel argument: a `recompile` decision needs `r < 2`, so with
fuel `3` from `r = 0` the fuel-exhausted case is unreachable. -/
def runCompilerGateFrom (compileOut : Nat → List Char) (technical : List Char)
    (threshold : Int) : Nat → Nat → CompilerGateResult
  | 0, r => { finalAnswer := compileOut r, retries := r, aborted := false }
  | fuel + 1, r =>
    let compiled := compileOut r
    let ev := compilerEvaluate compiled technical
    if compilerDecision (some ev) r threshold = "recompile" then
      runCompilerGateFrom compileOut technical threshold fuel (r + 1)
    else
      { finalAnswer := compiled, retries := r, aborted := false }

/-- The whole compiler gate segment, entered with `compiler_retry_count = 0`. -/
def runCompilerGate (compileOut : Nat → List Char) (technical : List Char)
    (threshold : Int) : CompilerGateResult :=
  runCompilerGateFrom compileOut technical threshold 3 0

/-! ## Legacy web-search fallback (`_should_web_search`) -/

/-- A retrieved document as read by `_should_web_search`: only the similarity
score (cosine distance, lower is closer) matters. -/
structure RetrievedDoc where
  id : List Char
  score : ℚ
deriving DecidableEq, Repr

/-- `ResearchGraph._should_web_search`: web search exactly when no documents
were retrieved, or a single low-quality document (distance above 0.5). -/
def shouldWebSearch (documents : List RetrievedDoc) : String :=
  match documents with
  | [] => "web_search"
  | d :: _ =>
    if documents.length < 2 ∧ d.score > 1/2 then "web_search"
    else "answer"

/-! ## Tiered web search (`TavilyResearchClient.search_prioritized`) -/

/-- A web-search result as handled by `search_prioritized`: deduplication
reads only `url` (`result.get("url", "")`). -/
structure TavilyResult where
  url : String
  title : String
  content : String
  priority_tier : String
  tier_rank : Nat
deriving DecidableEq, Repr

/-- The `(tier, limit)` search plan per research depth. -/
def searchesFor (depth : String) : List (String × Nat) :=
  if depth = "quick" then [("tier_1", 5)]
  else if depth = "standard" then [("tier_1", 5), ("tier_2", 3)]
  else [("tier_1", 5), ("tier_2", 3), ("tier_3", 5)]

/-- The contribution of one tier inside the `try/except` of
`search_prioritized`: a raising tier search is caught and contributes zero
results.  `outcome` abstracts `_search_tier` (the external Tavily call). -/
def tierContribution (outcome : String → Nat → Except String (List TavilyResult))
    (tier : String) (limit : Nat) : List TavilyResult :=
  match outcome tier limit with
  | .ok results => results
  | .error _ => []

/-- `all_results`: tier results concatenated in tier-priority order. -/
def allTierResults (outcome : String → Nat → Except String (List TavilyResult))
    (depth : String) : List TavilyResult :=
  ((searchesFor depth).map (fun s => tierContribution outcome s.1 s.2)).flatten

/-- URL deduplication of `search_prioritized`: keep the first occurrence of
each non-empty URL (`if url and url not in seen_urls`). -/
def dedupByUrl (seen : List String) : List TavilyResult → List TavilyResult
  | [] => []
  | r :: rest =>
    if r.url ≠ "" ∧ r.url ∉ seen then r :: dedupByUrl (r.url :: seen) rest
    else dedupByUrl seen rest

/-- `TavilyResearchClient.search_prioritized`: execute the depth's tiers,
concatenate, deduplicate by URL, truncate to `max_results`. -/
def searchPrioritized (outcome : String → Nat → Except String (List TavilyResult))
    (depth : String) (maxResults : Nat) : List TavilyResult :=
  (dedupByUrl [] (allTierResults outcome depth)).take maxResults

/-! ## Citation fidelity subsystem (`_inject_missing_citations`) -/

/-- The stop-list of `_inject_missing_citations` step 3. -/
def citationStopWords : List (List Char) :=
  [tl "which", tl "where", tl "there", tl "these", tl "those", tl "their", tl "about"]

/-- The bracketed marker `[cid]` of a citation id. -/
def citationTag (cid : List Char) : List Char := '[' :: (cid ++ [']'])

/-- Step 2: the origin sentence of a missing citation — the first sentence of
the technical answer containing the marker, with the marker removed and the
result stripped. -/
def findSourceSentence (techSentences : List (List Char)) (tag : List Char) :
    Option (List Char) :=
  match techSentences.find? (fun s => containsSub s tag) with
  | some s => some (stripWs (replaceAll s tag []))
  | none => none

/-- Step 3: key terms — `\b\w{5,}\b` tokens, lower-cased, minus the
stop-list. -/
def keyTermsOf (sourceSentence : List Char) : List (List Char) :=
  (((wordRuns sourceSentence).filter (fun w => w.length ≥ 5)).map lowerStr).filter
    (fun w => w ∉ citationStopWords)

/-- Step 4 scoring: how many key terms (with multiplicity) appear in the
lower-cased sentence. -/
def matchScore (keyTerms : List (List Char)) (sentence : List Char) : Nat :=
  (keyTerms.filter (fun term => containsSub (lowerStr sentence) term)).length

/-- Step 4 selection: the index of the first sentence attaining the highest
strictly positive score (`match_score > best_match_score` starting from 0). -/
def bestMatchGo (keyTerms : List (List Char)) :
    List (List Char) → Nat → Nat → Option Nat → Option Nat
  | [], _, _, best => best
  | s :: rest, idx, bestScore, best =>
    let sc := matchScore keyTerms s
    if sc > bestScore then bestMatchGo keyTerms rest (idx + 1) sc (some idx)
    else bestMatchGo keyTerms rest (idx + 1) bestScore best

/-- The selected sentence index, if any sentence scores above zero. -/
def bestMatchIdx (keyTerms : List (List Char)) (sentences : List (List Char)) :
    Option Nat :=
  bestMatchGo keyTerms sentences 0 0 none

/-- Step 5 marker placement: append ` [cid]` just before trailing `.`, `!`
or `?`, or at the end of the sentence otherwise. -/
def injectTag (target tag : List Char) : List Char :=
  if target.getLast? = some '.' then
    target.dropLast ++ (' ' :: tag) ++ ['.']
  else if target.getLast? = some '!' ∨ target.getLast? = some '?' then
    target.dropLast ++ (' ' :: tag) ++ [(target.getLast?).getD ' ']
  else
    target ++ (' ' :: tag)

/-- One iteration of the `for citation_id in missing_citations` loop.  The
result is the value of the loop-local variable `compiled_sentences` after
this iteration: `none` when the iteration hits one of the two `continue`s
before line 89 (no origin sentence — including Python's falsy empty string
after stripping — or no key terms), so the variable is left untouched;
otherwise `some` of the freshly re-split sentence list of the *original*
compiled text (line 89 re-binds `compiled_sentences` from the unchanged
`compiled` parameter on every iteration, discarding any injection a previous
iteration made), with the marker injected into its best-matching sentence
when one exists and does not already carry the marker. -/
def injectionStep (techSentences : List (List Char)) (compiled : List Char)
    (cid : List Char) : Option (List (List Char)) :=
  let tag := citationTag cid
  match findSourceSentence techSentences tag with
  | none => none
  | some sourceSentence =>
    if sourceSentence = [] then none
    else
      let keyTerms := keyTermsOf sourceSentence
      if keyTerms = [] then none
      else
        let sentences := splitSentences compiled
        match bestMatchIdx keyTerms sentences with
        | none => some sentences
        | some idx =>
          let target := sentences.getD idx []
          if containsSub target tag then some sentences
          else some (sentences.set idx (injectTag target tag))

/-- The `for citation_id in missing_citations` loop: thread the binding of
the loop-local `compiled_sentences` (initially unbound, modelled `none`);
each iteration that reaches line 89 overwrites it. -/
def injectionLoop (techSentences : List (List Char)) (compiled : List Char) :
    List (List Char) → Option (List (List Char)) → Option (List (List Char))
  | [], binding => binding
  | cid :: rest, binding =>
    match injectionStep techSentences compiled cid with
    | none => injectionLoop techSentences compiled rest binding
    | some newBinding => injectionLoop techSentences compiled rest (some newBinding)

/-- `_inject_missing_citations(compiled, technical_answer, missing)`: with no
missing citations the compiled text is returned untouched; otherwise the loop
runs and line 136 joins `compiled_sentences` with single spaces — raising
`UnboundLocalError` (modelled as `Except.error`) when every iteration
`continue`d before the variable was first assigned. -/
def injectMissingCitations (compiled technicalAnswer : List Char)
    (missingCitations : List (List Char)) : Except (List Char) (List Char) :=
  if missingCitations = [] then .ok compiled
  else
    let techSentences := splitSentences technicalAnswer
    match injectionLoop techSentences compiled missingCitations none with
    | none => .error (tl "UnboundLocalError")
    | some sentences => .ok (List.intercalate [' '] sentences)

/-! ## Technical compiler (`TechnicalCompiler.compile`) -/

/-- Replace a `{slot}` hole of a prompt template. -/
def formatSlot (template slotName value : List Char) : List Char :=
  replaceAll template ("\x7b".toList ++ slotName ++ "\x7d".toList) value

/-- The citation block of the prompt:
`"\n".join(f"[{id}] {source}" for c in citations)`. -/
def citationsBlock (citations : List Citation) : List Char :=
  List.intercalate (tl "\n")
    (citations.map (fun c => tl "[" ++ c.id ++ tl "] " ++ c.source))

/-- The prompt construction of `TechnicalCompiler.compile`:
`RECOMPILE_PROMPT` when both feedback and a previous attempt are present
(Python truthiness: both non-empty), `COMPILER_PROMPT` otherwise; the
template texts are parameters, the hole filling is `str.format`. -/
def buildPrompt (compilerPrompt recompilePrompt : List Char)
    (technicalAnswer : List Char) (citations : List Citation)
    (feedback : List (List Char)) (previousCompilation : List Char) : List Char :=
  let citationsStr := citationsBlock citations
  let citationCount := tl (toString citations.length)
  if feedback ≠ [] ∧ previousCompilation ≠ [] then
    formatSlot (formatSlot (formatSlot (formatSlot (formatSlot recompilePrompt
      (tl "technical_answer") technicalAnswer)
      (tl "citations") citationsStr)
      (tl "citation_count") citationCount)
      (tl "previous_compilation") previousCompilation)
      (tl "feedback") (List.intercalate (tl "\n") feedback)
  else
    formatSlot (formatSlot (formatSlot compilerPrompt
      (tl "technical_answer") technicalAnswer)
      (tl "citations") citationsStr)
      (tl "citation_count") citationCount

/-- The `try` block of `TechnicalCompiler.compile` after the prompt is
built: call the chat model, strip the response, and re-inject any citation
ids whose markers the model dropped.  The chat model is the parameter
`provider` (a `ProviderError` is an `Except.error`); the citation-injection
step can itself raise (`UnboundLocalError`, see `injectMissingCitations`),
and its error propagates out of the attempt to the `except` handler. -/
def compileAttempt (provider : List Char → Except (List Char) (List Char))
    (compilerPrompt recompilePrompt : List Char)
    (technicalAnswer : List Char) (citations : List Citation)
    (feedback : List (List Char)) (previousCompilation : List Char) :
    Except (List Char) (List Char) :=
  match provider (buildPrompt compilerPrompt recompilePrompt technicalAnswer
      citations feedback previousCompilation) with
  | .error e => .error e
  | .ok response =>
    let compiled := stripWs response
    let citationIds := citations.map (·.id)
    let missing := citationIds.filter
      (fun cid => cid ≠ [] ∧ ¬ containsSub compiled (citationTag cid))
    if missing ≠ [] then
      match injectMissingCitations compiled technicalAnswer missing with
      | .error e => .error e
      | .ok injected => .ok injected
    else
      .ok compiled

/-- `TechnicalCompiler.compile`: the whole body runs inside `try/except`;
on any raised error the original technical answer is returned unchanged. -/
def compilerCompile (provider : List Char → Except (List Char) (List Char))
    (compilerPrompt recompilePrompt : List Char)
    (technicalAnswer : List Char) (citations : List Citation)
    (feedback : List (List Char)) (previousCompilation : List Char) : List Char :=
  match compileAttempt provider compilerPrompt recompilePrompt technicalAnswer
      citations feedback previousCompilation with
  | .ok compiled => compiled
  | .error _ => technicalAnswer

/-! ## Concrete inputs used by counterexamples and witnesses -/

/-- A short narrative whose aha-moment indicator count is exactly one
(`insight`), with full marks on technical preservation, scenario quality and
flow: total 82, aha-moment 12. -/
def narrativeShortAha : List Char :=
  tl "She hit a problem with her code.\n\nThe solution came when she found one useful insight about the code.\n\nThen the tests went green and the team shipped on time."

/-- A technical answer carrying a `doc` citation, a `web` citation, a code
block and one backtick term. -/
def technicalAnswerRich : List Char :=
  tl "Use `len` [doc-1].\n```python\nx = 1\n```\nSee [web-1]!"

/-- A compiled output that drops every citation, code block and term of
`technicalAnswerRich`: its compiler technical-preservation score is 11,
far below the hard floor of 28. -/
def compiledDropsEverything : List Char := tl "Totally unrelated content."

/-- A compiled text that scores 100 on the compiler rubric (against an empty
technical baseline): challenge framing, system language, win language,
two micro-fix indicators, a Real-World Examples cue, three `consider`
prompts and a final reflection question. -/
def compiledPswPassing : List Char :=
  tl "When working with lists, the challenge is real. Consider how sorting works in production. Consider a real-world example from industry: one small fix gave the team a key insight. In practice, for example, you should consider the trade-offs.\n\nReflection: what enables faster code?"

/-- The citation-repair scenario's source text. -/
def repairScenarioSource : List Char := tl "Lists are ordered [doc-1] and mutable [doc-2]."

/-- The citation-repair scenario's transformed text. -/
def repairScenarioTransformed : List Char := tl "Lists maintain order and support mutation."

/-- The result the program computes on the citation-repair scenario. -/
def repairScenarioResult : Except (List Char) (List Char) :=
  injectMissingCitations repairScenarioTransformed repairScenarioSource
    [tl "doc-1", tl "doc-2"]

/-- A sample tier outcome: tier 1 returns two results, tier 2 repeats the
first URL, tier 3 raises. -/
def tierOutcomeSample : String → Nat → Except String (List TavilyResult) :=
  fun tier _ =>
    if tier = "tier_3" then .error "boom"
    else if tier = "tier_2" then .ok [⟨"https://a", "A2", "", "tier_2", 2⟩]
    else .ok [⟨"https://a", "A", "", "tier_1", 1⟩, ⟨"https://b", "B", "", "tier_1", 1⟩]

/-! ## Helper lemmas -/

/-- `_evaluation_decision` sends the run back to `rewrite_content` exactly
when the report failed, has feedback, and fewer than 5 retries happened. -/
theorem evaluationDecision_rewrite_iff (e : GenerationEvaluation) (r : Nat) :
    evaluationDecision (some e) r = "rewrite" ↔
      e.passed = false ∧ e.feedback ≠ [] ∧ r < 5 := by
  simp only [evaluationDecision]
  split
  · rename_i h
    simp [h]
  · split
    · rename_i _ h
      constructor
      · intro hc; exact absurd hc (by decide)
      · rintro ⟨_, _, hr⟩; omega
    · split
      · rename_i hp _ hf
        constructor
        · intro hc; exact absurd hc (by decide)
        · rintro ⟨_, hne, _⟩; exact absurd hf hne
      · rename_i hp hr hf
        simp only [Bool.not_eq_true] at hp
        constructor
        · intro _; exact ⟨hp, hf, by omega⟩
        · intro _; rfl

/-- `_compiler_decision` asks for a recompile only below the threshold with
fewer than 2 retries. -/
theorem compilerDecision_recompile_iff (ev : Option CompilerEvaluation)
    (r : Nat) (threshold : Int) :
    compilerDecision ev r threshold = "recompile" ↔
      ¬ ((ev.map (·.total_score)).getD 0 ≥ threshold) ∧ r < 2 := by
  simp only [compilerDecision]
  split
  · rename_i h
    constructor
    · intro hc; exact absurd hc (by decide)
    · rintro ⟨hn, _⟩; exact absurd h hn
  · split
    · rename_i hs hr
      simp [hs, hr]
    · rename_i hs hr
      constructor
      · intro hc; exact absurd hc (by decide)
      · rintro ⟨_, h2⟩; omega

/-! ## Claim C4 -/

/-- Claim C4: the legacy fallback rule is a pure function of the retrieved
documents.  `_should_web_search` selects web search exactly when zero
documents were retrieved, or fewer than two were retrieved and the best
similarity distance exceeds 0.5; with at least two documents (whatever their
scores) it answers from RAG alone. -/
theorem c4_legacy_fallback_rule (documents : List RetrievedDoc) :
    (shouldWebSearch documents = "web_search" ↔
      documents = [] ∨ ∃ d, documents = [d] ∧ d.score > 1/2) ∧
    (2 ≤ documents.length → shouldWebSearch documents = "answer") := by
  match documents with
  | [] =>
    constructor
    · simp [shouldWebSearch]
    · intro h; simp at h
  | [d] =>
    constructor
    · by_cases h : d.score > 1/2
      · simp [shouldWebSearch, h]
      · simp only [shouldWebSearch, List.length_singleton]
        rw [if_neg (by simpa using h)]
        constructor
        · intro hc; exact absurd hc (by decide)
        · rintro (hnil | ⟨d', hd', hs⟩)
          · exact absurd hnil (by simp)
          · rw [List.cons.injEq] at hd'
            exact absurd (hd'.1 ▸ hs) h
    · intro h; simp at h
  | d1 :: d2 :: rest =>
    constructor
    · simp only [shouldWebSearch, List.length_cons]
      rw [if_neg (by omega)]
      constructor
      · intro hc; exact absurd hc (by decide)
      · rintro (hnil | ⟨d', hd', _⟩)
        · exact absurd hnil (by simp)
        · simp at hd'
    · intro _
      simp only [shouldWebSearch, List.length_cons]
      rw [if_neg (by omega)]

/-- Witness for C4: with two close documents the rule answers from RAG, with
one distant document or none it falls back to web search. -/
theorem c4_legacy_fallback_rule_witness :
    shouldWebSearch [⟨tl "doc-1", 1/4⟩, ⟨tl "doc-2", 2/5⟩] = "answer" ∧
    shouldWebSearch [] = "web_search" ∧
    shouldWebSearch [⟨tl "doc-1", 3/4⟩] = "web_search" := by
  refine ⟨(c4_legacy_fallback_rule _).2 (by decide), ?_, ?_⟩
  · exact (c4_legacy_fallback_rule _).1.mpr (Or.inl rfl)
  · exact (c4_legacy_fallback_rule _).1.mpr (Or.inr ⟨_, rfl, by norm_num⟩)

/-! ## Claim C6 -/

/-- Claim C6, evaluated at the claim's own scenario (a code bug).  The
`doc-1` iteration injects `[doc-1]`, but the `doc-2` iteration re-splits the
*original* transformed text (`technical_compiler.py:89` runs inside the
per-citation loop), discarding that injection; the program returns
`"Lists maintain order and support mutation [doc-2]."` — the `doc-2` marker
is attached to the sentence containing `order` and `mutation`, but `[doc-1]`
is absent, contradicting the claim and the function's own stated purpose of
injecting every missing citation. -/
theorem c6_citation_repair_scenario :
    repairScenarioResult =
      .ok (tl "Lists maintain order and support mutation [doc-2].") ∧
    containsSub (tl "Lists maintain order and support mutation [doc-2].")
      (tl "[doc-2]") = true ∧
    containsSub (tl "Lists maintain order and support mutation [doc-2].")
      (tl "[doc-1]") = false ∧
    containsSub (tl "Lists maintain order and support mutation [doc-2].")
      (tl "order") = true ∧
    containsSub (tl "Lists maintain order and support mutation [doc-2].")
      (tl "mutation") = true :=
  ⟨rfl, by decide, by decide, by decide, by decide⟩

/-! ## Claim C2 -/

/-- Counterexample to claim C2: the narrative evaluator does not place a hard
floor on the aha-moment criterion.  On `narrativeShortAha` (with empty
technical baseline, no citations, complexity `simple`) the aha-moment score
is 12 — below 15, the score at which the evaluator itself emits the
`CRITICAL` aha-moment feedback — yet the report passes with total 82,
because `passed` only checks `total_score >= 80` and the technical
preservation floor. -/
theorem c2_counterexample :
    (narrativeEvaluate narrativeShortAha (tl "") [] (tl "simple")).aha_moment = 12 ∧
    ((narrativeEvaluate narrativeShortAha (tl "") [] (tl "simple")).aha_moment < 15) ∧
    (tl "CRITICAL: 'Micro fix, macro impact' moment is unclear or missing") ∈
      (narrativeEvaluate narrativeShortAha (tl "") [] (tl "simple")).feedback ∧
    (narrativeEvaluate narrativeShortAha (tl "") [] (tl "simple")).total_score = 82 ∧
    (narrativeEvaluate narrativeShortAha (tl "") [] (tl "simple")).passed = true := by
  decide

/-- Claim C2 as amended: the narrative evaluator's only hard floor is
technical preservation (25); for every input, `passed` holds exactly when the
total score reaches the threshold 80 and technical preservation is at least
25, while an aha-moment score below 15 merely contributes the `CRITICAL`
aha-moment feedback line and cannot by itself force `passed = false`. -/
theorem c2_narrative_pass_rule (narrative technical : List Char)
    (citations : List Citation) (complexity : List Char) :
    ((narrativeEvaluate narrative technical citations complexity).passed = true ↔
      (narrativeEvaluate narrative technical citations complexity).total_score ≥ 80 ∧
      (narrativeEvaluate narrative technical citations complexity).technical_preservation ≥ 25) ∧
    ((narrativeEvaluate narrative technical citations complexity).aha_moment < 15 →
      (tl "CRITICAL: 'Micro fix, macro impact' moment is unclear or missing") ∈
        (narrativeEvaluate narrative technical citations complexity).feedback) := by
  constructor
  · simp [narrativeEvaluate]
  · intro h
    simp only [narrativeEvaluate] at h ⊢
    simp only [List.mem_append]
    left
    right
    rw [if_pos h]
    exact List.mem_singleton.2 rfl

/-- Witness for the amended C2 theorem at the concrete counterexample
input. -/
theorem c2_narrative_pass_rule_witness :
    ((narrativeEvaluate narrativeShortAha (tl "") [] (tl "simple")).passed = true ↔
      (narrativeEvaluate narrativeShortAha (tl "") [] (tl "simple")).total_score ≥ 80 ∧
      (narrativeEvaluate narrativeShortAha (tl "") [] (tl "simple")).technical_preservation ≥ 25) ∧
    (tl "CRITICAL: 'Micro fix, macro impact' moment is unclear or missing") ∈
      (narrativeEvaluate narrativeShortAha (tl "") [] (tl "simple")).feedback :=
  ⟨(c2_narrative_pass_rule narrativeShortAha (tl "") [] (tl "simple")).1,
    (c2_narrative_pass_rule narrativeShortAha (tl "") [] (tl "simple")).2 (by decide)⟩

/-! ## Claim C1 -/

/-- Counterexample to claim C1 on the compiler path: with the default
threshold 95, every evaluation of `compiledDropsEverything` against
`technicalAnswerRich` violates the technical-preservation hard floor
(score 11 < 28, `passed = false`), yet after the 2 allowed recompiles the
compiler gate's decision is `done`, never `abort`: the run ends without an
abort marker and its final answer is the failing stage's output — which
differs from the last content that passed a gate (the technical answer). -/
theorem c1_counterexample :
    (compilerEvaluate compiledDropsEverything technicalAnswerRich).technical_preservation = 11 ∧
    (compilerEvaluate compiledDropsEverything technicalAnswerRich).technical_preservation < 28 ∧
    (compilerEvaluate compiledDropsEverything technicalAnswerRich).passed = false ∧
    compilerDecision (some (compilerEvaluate compiledDropsEverything technicalAnswerRich))
      2 95 = "done" ∧
    runCompilerGate (fun _ => compiledDropsEverything) technicalAnswerRich 95 =
      { finalAnswer := compiledDropsEverything, retries := 2, aborted := false } ∧
    compiledDropsEverything ≠ technicalAnswerRich := by
  decide

/-- Claim C1 as amended: only the narrative gate aborts on a hard-floor
violation — a technical-preservation score below 25 always yields the
decision `abort`.  The compiler gate's decision never aborts (it depends only
on the total score and the retry counter), so a run whose compiled output
persistently violates the compiler's hard floor ends `done` with the failing
output.  The brand gate aborts exactly when the recomputed final quality
drops more than the tolerance below the technical baseline — not on its
brand-voice hard floor. -/
theorem c1_abort_invariant_amended :
    (∀ (ev : Option NarrativeEvaluation) (r : Nat),
      (ev.map (·.technical_preservation)).getD 0 < 25 →
        narrativeDecision ev r = "abort") ∧
    (∀ (ev : Option CompilerEvaluation) (r : Nat) (threshold : Int),
      compilerDecision ev r threshold ≠ "abort") ∧
    (∀ (ev : Option AethelgardEvaluation) (baseline tolerance finalQuality : ℚ)
      (r : Nat),
      aethelgardDecision ev baseline tolerance finalQuality r = "abort" ↔
        finalQuality < baseline - tolerance) := by
  refine ⟨?_, ?_, ?_⟩
  · intro ev r h
    simp only [narrativeDecision]
    rw [if_pos h]
  · intro ev r threshold
    simp only [compilerDecision]
    split
    · decide
    · split
      · decide
      · decide
  · intro ev baseline tolerance finalQuality r
    simp only [aethelgardDecision]
    split
    · rename_i h
      simp [h]
    · rename_i h
      constructor
      · intro hc
        split at hc
        · exact absurd hc (by decide)
        · split at hc
          · exact absurd hc (by decide)
          · split at hc
            · exact absurd hc (by decide)
            · exact absurd hc (by decide)
      · intro hq
        exact absurd hq h

/-- Witness for the amended C1 theorem: a missing narrative evaluation
defaults to technical preservation 0 and aborts; the compiler decision at the
counterexample state is not `abort`; a 12-point quality drop against
tolerance 5 aborts the brand gate. -/
theorem c1_abort_invariant_amended_witness :
    narrativeDecision none 0 = "abort" ∧
    compilerDecision (some (compilerEvaluate compiledDropsEverything technicalAnswerRich))
      2 95 ≠ "abort" ∧
    aethelgardDecision none 90 5 78 0 = "abort" :=
  ⟨c1_abort_invariant_amended.1 none 0 (by decide),
    c1_abort_invariant_amended.2.1 _ 2 95,
    (c1_abort_invariant_amended.2.2 none 90 5 78 0).mpr (by norm_num)⟩

/-! ## Claim C8 -/

/-- The compiler technical-preservation criterion never exceeds its 30-point
maximum. -/
theorem compilerTechPreservation_le (compiled technical : List Char) :
    compilerTechPreservation compiled technical ≤ 30 := by
  unfold compilerTechPreservation
  dsimp only
  split_ifs <;> omega

/-- The PSW-structure criterion never exceeds its 20-point maximum. -/
theorem compilerPswStructure_le (compiled : List Char) :
    compilerPswStructure compiled ≤ 20 := by
  unfold compilerPswStructure
  dsimp only
  split_ifs <;> omega

/-- The real-world-integration criterion never exceeds its 15-point
maximum. -/
theorem compilerRealWorldIntegration_le (compiled : List Char) :
    compilerRealWorldIntegration compiled ≤ 15 := by
  unfold compilerRealWorldIntegration
  dsimp only
  split_ifs <;> omega

/-- The reflective-depth criterion never exceeds its 15-point maximum. -/
theorem compilerReflectiveDepth_le (compiled : List Char) :
    compilerReflectiveDepth compiled ≤ 15 := by
  unfold compilerReflectiveDepth
  dsimp only
  split_ifs <;> omega

/-- Claim C8: for every input, each evaluator of the bank reports a total
score equal to the sum of its criterion scores, and passes exactly when the
total reaches its threshold (compiler 95, narrative 80, brand 85) and its
floor-bearing criterion is at or above its floor (technical preservation 28
for the compiler, 25 for the narrative; brand voice 20 for the brand rubric).
For the compiler, a passing report moreover forces the second criterion the
spec marks as a hard floor, micro-fix clarity, to be at least 15, since the
other criteria sum to at most 80. -/
theorem c8_evaluation_report_invariant :
    (∀ (narrative technical : List Char) (citations : List Citation)
      (complexity : List Char),
      (narrativeEvaluate narrative technical citations complexity).total_score =
        (narrativeEvaluate narrative technical citations complexity).technical_preservation +
        (narrativeEvaluate narrative technical citations complexity).complexity_alignment +
        (narrativeEvaluate narrative technical citations complexity).scenario_quality +
        (narrativeEvaluate narrative technical citations complexity).aha_moment +
        (narrativeEvaluate narrative technical citations complexity).narrative_flow ∧
      ((narrativeEvaluate narrative technical citations complexity).passed = true ↔
        (narrativeEvaluate narrative technical citations complexity).total_score ≥ 80 ∧
        (narrativeEvaluate narrative technical citations complexity).technical_preservation ≥ 25)) ∧
    (∀ compiled technical : List Char,
      (compilerEvaluate compiled technical).total_score =
        (compilerEvaluate compiled technical).technical_preservation +
        (compilerEvaluate compiled technical).psw_structure +
        (compilerEvaluate compiled technical).micro_fix_clarity +
        (compilerEvaluate compiled technical).real_world_integration +
        (compilerEvaluate compiled technical).reflective_depth ∧
      ((compilerEvaluate compiled technical).passed = true ↔
        (compilerEvaluate compiled technical).total_score ≥ 95 ∧
        (compilerEvaluate compiled technical).technical_preservation ≥ 28) ∧
      ((compilerEvaluate compiled technical).passed = true →
        (compilerEvaluate compiled technical).micro_fix_clarity ≥ 15)) ∧
    (∀ content : List Char,
      (aethelgardEvaluate content).total_score =
        (aethelgardEvaluate content).brand_voice +
        (aethelgardEvaluate content).keyword_integration +
        (aethelgardEvaluate content).rag_structure +
        (aethelgardEvaluate content).final_quality +
        (aethelgardEvaluate content).uniqueness ∧
      ((aethelgardEvaluate content).passed = true ↔
        (aethelgardEvaluate content).total_score ≥ 85 ∧
        (aethelgardEvaluate content).brand_voice ≥ 20)) := by
  refine ⟨?_, ?_, ?_⟩
  · intro narrative technical citations complexity
    exact ⟨rfl, by simp [narrativeEvaluate]⟩
  · intro compiled technical
    refine ⟨rfl, by simp [compilerEvaluate], ?_⟩
    intro hp
    have hiff : (compilerEvaluate compiled technical).passed = true ↔
        (compilerEvaluate compiled technical).total_score ≥ 95 ∧
        (compilerEvaluate compiled technical).technical_preservation ≥ 28 := by
      simp [compilerEvaluate]
    have h95 := (hiff.1 hp).1
    have hsum : (compilerEvaluate compiled technical).total_score =
        (compilerEvaluate compiled technical).technical_preservation +
        (compilerEvaluate compiled technical).psw_structure +
        (compilerEvaluate compiled technical).micro_fix_clarity +
        (compilerEvaluate compiled technical).real_world_integration +
        (compilerEvaluate compiled technical).reflective_depth := rfl
    have e1 : (compilerEvaluate compiled technical).technical_preservation =
        compilerTechPreservation compiled technical := rfl
    have e2 : (compilerEvaluate compiled technical).psw_structure =
        compilerPswStructure compiled := rfl
    have e3 : (compilerEvaluate compiled technical).real_world_integration =
        compilerRealWorldIntegration compiled := rfl
    have e4 : (compilerEvaluate compiled technical).reflective_depth =
        compilerReflectiveDepth compiled := rfl
    have b1 := compilerTechPreservation_le compiled technical
    have b2 := compilerPswStructure_le compiled
    have b3 := compilerRealWorldIntegration_le compiled
    have b4 := compilerReflectiveDepth_le compiled
    omega
  · intro content
    exact ⟨rfl, by simp [aethelgardEvaluate]⟩

/-- Witness for C8: a concrete compiled text that passes the compiler rubric
(total 100 against an empty baseline), at which the theorem's pass
characterisation and the implied micro-fix floor are instantiated. -/
theorem c8_evaluation_report_invariant_witness :
    (compilerEvaluate compiledPswPassing (tl "")).passed = true ∧
    (compilerEvaluate compiledPswPassing (tl "")).total_score ≥ 95 ∧
    (compilerEvaluate compiledPswPassing (tl "")).micro_fix_clarity ≥ 15 :=
  ⟨by decide,
    ((c8_evaluation_report_invariant.2.1 compiledPswPassing (tl "")).2.1.1 (by decide)).1,
    (c8_evaluation_report_invariant.2.1 compiledPswPassing (tl "")).2.2 (by decide)⟩

/-! ## Claim C3 -/

/-- Whatever the fuel, the Gate-1 loop performs at most `6 - min r 5`
generate-then-evaluate cycles from retry counter `r`, because a `rewrite`
decision requires `r < 5`. -/
theorem generateEvaluateCycles_le (outcome : Nat → GenerationEvaluation) :
    ∀ (fuel r : Nat), generateEvaluateCycles outcome fuel r ≤ 6 - min r 5 := by
  intro fuel
  induction fuel with
  | zero => intro r; simp only [generateEvaluateCycles]; omega
  | succ fuel ih =>
    intro r
    simp only [generateEvaluateCycles]
    split
    · rename_i h
      have hr := ((evaluationDecision_rewrite_iff (outcome r) r).1 h).2.2
      have := ih (rewriteRetryCount r)
      simp only [rewriteRetryCount] at this ⊢
      omega
    · omega

/-- The Gate-1 loop never decreases the retry counter. -/
theorem finalRetryCount_ge (outcome : Nat → GenerationEvaluation) :
    ∀ (fuel r : Nat), r ≤ finalRetryCount outcome fuel r := by
  intro fuel
  induction fuel with
  | zero => intro r; simp [finalRetryCount]
  | succ fuel ih =>
    intro r
    simp only [finalRetryCount]
    split
    · have := ih (rewriteRetryCount r)
      simp only [rewriteRetryCount] at this ⊢
      omega
    · omega

/-- Claim C3: the generation stage's retry bound.  A `rewrite` is taken
exactly when the evaluation did not pass, its feedback is non-empty and the
retry counter is below 5; `_rewrite_answer` increments the counter by exactly
one; consequently (for any fuel, so the bound comes from the decision logic)
a run performs at most 6 generate-then-evaluate cycles; and the loop never
resets the counter — in particular a passing evaluation leaves it unchanged
(`evaluationDecision` returns `done` and the state is not rewritten). -/
theorem c3_generation_retry_bound :
    (∀ (e : GenerationEvaluation) (r : Nat),
      evaluationDecision (some e) r = "rewrite" ↔
        e.passed = false ∧ e.feedback ≠ [] ∧ r < 5) ∧
    (∀ r : Nat, rewriteRetryCount r = r + 1) ∧
    (∀ (outcome : Nat → GenerationEvaluation) (fuel : Nat),
      generateEvaluateCycles outcome fuel 0 ≤ 6) ∧
    (∀ (outcome : Nat → GenerationEvaluation) (fuel r : Nat),
      r ≤ finalRetryCount outcome fuel r) ∧
    (∀ (e : GenerationEvaluation) (r : Nat),
      e.passed = true → evaluationDecision (some e) r = "done") := by
  refine ⟨evaluationDecision_rewrite_iff, fun _ => rfl, ?_, finalRetryCount_ge, ?_⟩
  · intro outcome fuel
    have := generateEvaluateCycles_le outcome fuel 0
    omega
  · intro e r hp
    simp [evaluationDecision, hp]

/-- Witness for C3: a failing evaluation with feedback at retry 3 rewrites;
the counter moves from 3 to 4; the cycle count from a fresh run is at most
6; the final counter is at least the initial one; a passing evaluation is
routed `done`. -/
theorem c3_generation_retry_bound_witness :
    evaluationDecision (some ⟨false, [tl "Add citations"]⟩) 3 = "rewrite" ∧
    rewriteRetryCount 3 = 4 ∧
    generateEvaluateCycles (fun _ => ⟨false, [tl "Add citations"]⟩) 10 0 ≤ 6 ∧
    2 ≤ finalRetryCount (fun _ => ⟨false, [tl "Add citations"]⟩) 10 2 ∧
    evaluationDecision (some ⟨true, []⟩) 0 = "done" :=
  ⟨(c3_generation_retry_bound.1 ⟨false, [tl "Add citations"]⟩ 3).mpr (by decide),
    c3_generation_retry_bound.2.1 3,
    c3_generation_retry_bound.2.2.1 _ 10,
    c3_generation_retry_bound.2.2.2.1 _ 10 2,
    c3_generation_retry_bound.2.2.2.2 ⟨true, []⟩ 0 rfl⟩

/-! ## Claim C5 -/

/-- Every element kept by `dedupByUrl` has a URL outside `seen`, a non-empty
URL, and is the first element of the input carrying its URL. -/
theorem dedupByUrl_mem (seen : List String) (l : List TavilyResult)
    (r : TavilyResult) (hr : r ∈ dedupByUrl seen l) :
    r.url ∉ seen ∧ r.url ≠ "" ∧
      (l.filter (fun x => x.url == r.url)).head? = some r := by
  induction l generalizing seen with
  | nil => simp [dedupByUrl] at hr
  | cons x t ih =>
    simp only [dedupByUrl] at hr
    by_cases hx : x.url ≠ "" ∧ x.url ∉ seen
    · rw [if_pos hx] at hr
      rcases List.mem_cons.1 hr with h | h
      · subst h
        refine ⟨hx.2, hx.1, ?_⟩
        rw [List.filter_cons_of_pos (by simp)]
        rfl
      · have h3 := ih (x.url :: seen) h
        have hne : x.url ≠ r.url := by
          intro he
          exact h3.1 (he ▸ List.mem_cons_self _ _)
        refine ⟨fun hs => h3.1 (List.mem_cons_of_mem _ hs), h3.2.1, ?_⟩
        rw [List.filter_cons_of_neg (by simp [hne])]
        exact h3.2.2
    · rw [if_neg hx] at hr
      have h3 := ih seen hr
      have hne : x.url ≠ r.url := by
        rcases not_and_or.1 hx with h | h
        · push_neg at h
          rw [h]
          exact fun he => h3.2.1 he.symm
        · rw [not_not] at h
          intro he
          exact h3.1 (he ▸ h)
      refine ⟨h3.1, h3.2.1, ?_⟩
      rw [List.filter_cons_of_neg (by simp [hne])]
      exact h3.2.2

/-- The output of `dedupByUrl` has pairwise distinct URLs. -/
theorem dedupByUrl_pairwise (seen : List String) (l : List TavilyResult) :
    (dedupByUrl seen l).Pairwise (fun a b => a.url ≠ b.url) := by
  induction l generalizing seen with
  | nil => simp [dedupByUrl]
  | cons x t ih =>
    simp only [dedupByUrl]
    split
    · refine List.Pairwise.cons ?_ (ih _)
      intro b hb he
      exact (dedupByUrl_mem _ _ _ hb).1 (he ▸ List.mem_cons_self _ _)
    · exact ih _

/-- `dedupByUrl` only removes elements, preserving order. -/
theorem dedupByUrl_sublist (seen : List String) (l : List TavilyResult) :
    (dedupByUrl seen l).Sublist l := by
  induction l generalizing seen with
  | nil => simp [dedupByUrl]
  | cons x t ih =>
    simp only [dedupByUrl]
    split
    · exact List.Sublist.cons₂ x (ih _)
    · exact List.Sublist.cons x (ih _)

/-- Claim C5: the tiered merge.  For every tier outcome, depth and limit, the
coordinator's output has no two entries with the same URL; it is truncated to
at most the web-result limit; it is an order-preserving selection from the
tier-priority-ordered concatenation; and each kept entry is the *first*
occurrence of its URL in that concatenation (first occurrence wins). -/
theorem c5_tiered_merge_dedup
    (outcome : String → Nat → Except String (List TavilyResult))
    (depth : String) (maxResults : Nat) :
    (searchPrioritized outcome depth maxResults).Pairwise (fun a b => a.url ≠ b.url) ∧
    (searchPrioritized outcome depth maxResults).length ≤ maxResults ∧
    (searchPrioritized outcome depth maxResults).Sublist (allTierResults outcome depth) ∧
    ∀ r ∈ searchPrioritized outcome depth maxResults,
      ((allTierResults outcome depth).filter (fun x => x.url == r.url)).head? = some r := by
  refine ⟨?_, ?_, ?_, ?_⟩
  · exact (dedupByUrl_pairwise [] _).sublist (List.take_sublist _ _)
  · exact List.length_take_le _ _
  · exact (List.take_sublist _ _).trans (dedupByUrl_sublist [] _)
  · intro r hr
    exact (dedupByUrl_mem _ _ _ (List.mem_of_mem_take hr)).2.2

/-- Witness for C5 at a concrete outcome with a duplicated URL across tiers
and a failing third tier: the duplicate from tier 2 is dropped and the
tier-1 occurrence is the one kept. -/
theorem c5_tiered_merge_dedup_witness :
    (searchPrioritized tierOutcomeSample "deep" 5).Pairwise (fun a b => a.url ≠ b.url) ∧
    ((allTierResults tierOutcomeSample "deep").filter
        (fun x => x.url == "https://a")).head? =
      some ⟨"https://a", "A", "", "tier_1", 1⟩ :=
  ⟨(c5_tiered_merge_dedup tierOutcomeSample "deep" 5).1,
    (c5_tiered_merge_dedup tierOutcomeSample "deep" 5).2.2.2
      ⟨"https://a", "A", "", "tier_1", 1⟩ (by decide)⟩

/-! ## Claim C7 -/

/-- Claim C7: tier-failure isolation.  If one tier's search raises, the
tiered search still returns (by construction it is a total function into
plain lists): the failing tier contributes zero results, and every
successfully executed tier's results still appear contiguously, in order, in
the merged concatenation. -/
theorem c7_tier_failure_isolation
    (outcome : String → Nat → Except String (List TavilyResult))
    (depth tier : String) (limit : Nat) (e : String)
    (hfail : outcome tier limit = .error e) :
    tierContribution outcome tier limit = [] ∧
    ∀ (t' : String) (l' : Nat) (rs : List TavilyResult),
      (t', l') ∈ searchesFor depth → outcome t' l' = .ok rs →
      rs <:+: allTierResults outcome depth := by
  constructor
  · simp [tierContribution, hfail]
  · intro t' l' rs hmem hok
    have h2 : rs ∈ (searchesFor depth).map (fun s => tierContribution outcome s.1 s.2) := by
      refine List.mem_map.2 ⟨(t', l'), hmem, ?_⟩
      simp [tierContribution, hok]
    exact List.infix_of_mem_flatten h2

/-- Witness for C7 at the sample outcome: tier 3 fails with `boom`, tier 1's
two results still appear contiguously in the merged list. -/
theorem c7_tier_failure_isolation_witness :
    tierContribution tierOutcomeSample "tier_3" 5 = [] ∧
    [(⟨"https://a", "A", "", "tier_1", 1⟩ : TavilyResult),
      ⟨"https://b", "B", "", "tier_1", 1⟩] <:+:
      allTierResults tierOutcomeSample "deep" :=
  ⟨(c7_tier_failure_isolation tierOutcomeSample "deep" "tier_3" 5 "boom" rfl).1,
    (c7_tier_failure_isolation tierOutcomeSample "deep" "tier_3" 5 "boom" rfl).2
      "tier_1" 5 _ (by decide) rfl⟩

/-! ## Claim C9 -/

/-- Claim C9 at a failing input (a code bug).  When every missing id skips —
here the single id `doc-1` has no origin sentence in the source text — both
`continue`s fire before `compiled_sentences` is first assigned
(`technical_compiler.py:89`), and the join at line 136 raises
`UnboundLocalError` instead of returning a string, contradicting the
claimed (and documented) never-raise, best-effort contract.  An empty
missing-id list does return the input untouched; and the claim's placement
clause is true of the code: an injected marker is placed just before the
matched sentence's trailing `.`, `!` or `?` (or appended when there is
none), changing nothing else of the sentence. -/
theorem c9_repair_unbound_local_error :
    injectMissingCitations (tl "Anything goes here.") (tl "No markers at all.")
      [tl "doc-1"] = .error (tl "UnboundLocalError") ∧
    injectMissingCitations (tl "Anything goes here.") (tl "No markers at all.")
      [] = .ok (tl "Anything goes here.") ∧
    (∀ target tag : List Char, ∃ pre suf,
      injectTag target tag = pre ++ (' ' :: tag) ++ suf ∧
      pre ++ suf = target ∧
      (suf = [] ∨ ∃ c, (c = '.' ∨ c = '!' ∨ c = '?') ∧ suf = [c] ∧
        target.getLast? = some c)) := by
  refine ⟨rfl, rfl, ?_⟩
  intro target tag
  rcases List.eq_nil_or_concat target with rfl | ⟨l', c, rfl⟩
  · refine ⟨[], [], ?_, rfl, Or.inl rfl⟩
    simp [injectTag]
  · simp only [List.concat_eq_append]
    by_cases hdot : c = '.'
    · subst hdot
      refine ⟨l', ['.'], ?_, rfl, Or.inr ⟨'.', Or.inl rfl, rfl, List.getLast?_concat _⟩⟩
      simp [injectTag, List.getLast?_concat, List.dropLast_concat]
    · by_cases hbang : c = '!' ∨ c = '?'
      · refine ⟨l', [c], ?_, rfl,
          Or.inr ⟨c, Or.inr hbang, rfl, List.getLast?_concat _⟩⟩
        rcases hbang with rfl | rfl <;>
          simp [injectTag, List.getLast?_concat, List.dropLast_concat]
      · push_neg at hbang
        refine ⟨l' ++ [c], [], ?_, by simp, Or.inl rfl⟩
        simp [injectTag, List.getLast?_concat, hdot, hbang.1, hbang.2]

/-! ## Claim C10 -/

/-- Claim C10: compile error fallback.  If the compile attempt (prompt
construction, provider call, citation verification and injection) fails with
any error, `TechnicalCompiler.compile` returns the original technical answer
exactly; in particular a provider that always raises yields the technical
answer unchanged. -/
theorem c10_compile_error_fallback
    (provider : List Char → Except (List Char) (List Char))
    (compilerPrompt recompilePrompt technicalAnswer : List Char)
    (citations : List Citation) (feedback : List (List Char))
    (previousCompilation : List Char) :
    (∀ e, compileAttempt provider compilerPrompt recompilePrompt technicalAnswer
        citations feedback previousCompilation = .error e →
      compilerCompile provider compilerPrompt recompilePrompt technicalAnswer
        citations feedback previousCompilation = technicalAnswer) ∧
    ((∀ p, ∃ e, provider p = .error e) →
      compilerCompile provider compilerPrompt recompilePrompt technicalAnswer
        citations feedback previousCompilation = technicalAnswer) := by
  have h1 : ∀ e, compileAttempt provider compilerPrompt recompilePrompt technicalAnswer
      citations feedback previousCompilation = .error e →
      compilerCompile provider compilerPrompt recompilePrompt technicalAnswer
        citations feedback previousCompilation = technicalAnswer := by
    intro e he
    simp [compilerCompile, he]
  refine ⟨h1, ?_⟩
  intro hp
  have : ∃ e, compileAttempt provider compilerPrompt recompilePrompt technicalAnswer
      citations feedback previousCompilation = .error e := by
    obtain ⟨e, he⟩ := hp (buildPrompt compilerPrompt recompilePrompt
      technicalAnswer citations feedback previousCompilation)
    unfold compileAttempt
    rw [he]
    exact ⟨e, rfl⟩
  obtain ⟨e, he⟩ := this
  exact h1 e he

/-- Witness for C10, covering both error sources: a provider that always
raises `ProviderError` leaves the technical answer untouched; and with a
succeeding provider whose output misses the `doc-1` marker, the citation
injection itself raises (`UnboundLocalError`, since the technical answer has
no origin sentence for it) and `compile` still returns the technical answer
exactly unchanged. -/
theorem c10_compile_error_fallback_witness :
    compilerCompile (fun _ => .error (tl "ProviderError")) (tl "PROMPT")
      (tl "REPROMPT") (tl "The technical answer.") [⟨tl "doc-1", tl "source"⟩]
      [] (tl "") = tl "The technical answer." ∧
    compileAttempt (fun _ => .ok (tl "No relevant marker text."))
      (tl "PROMPT") (tl "REPROMPT") (tl "The answer without markers.")
      [⟨tl "doc-1", tl "source"⟩] [] (tl "") =
      .error (tl "UnboundLocalError") ∧
    compilerCompile (fun _ => .ok (tl "No relevant marker text."))
      (tl "PROMPT") (tl "REPROMPT") (tl "The answer without markers.")
      [⟨tl "doc-1", tl "source"⟩] [] (tl "") = tl "The answer without markers." :=
  ⟨(c10_compile_error_fallback (fun _ => .error (tl "ProviderError")) (tl "PROMPT")
      (tl "REPROMPT") (tl "The technical answer.") [⟨tl "doc-1", tl "source"⟩]
      [] (tl "")).2 (fun _ => ⟨tl "ProviderError", rfl⟩),
    rfl,
    (c10_compile_error_fallback (fun _ => .ok (tl "No relevant marker text."))
      (tl "PROMPT") (tl "REPROMPT") (tl "The answer without markers.")
      [⟨tl "doc-1", tl "source"⟩] [] (tl "")).1 (tl "UnboundLocalError") rfl⟩

end QncStudio
